import Mathlib

/-!
Verification of the clipai orchestration core: the credit ledger
(`creditService`), the transaction coordinator (`database/transaction`),
and the job orchestrator / status read model (the `/process/:id` routes).

The store is embedded as an explicit record of tables (`DB`); each
service method is a pure state-passing function translated from the
TypeScript source.  Fallible methods return `Except JsError _ × DB`
(the thrown error, if any, together with the store state at the point
where control left the method).  Timestamps (`Date`) are naturals held
in `DB.now`; SQLite integer columns are `Int`.
-/

namespace ClipAI

/-- A user row: `users(id, credits, is_subscribed, subscription_expires_at)`. -/
structure User where
  id : Nat
  credits : Int
  isSubscribed : Bool
  subscriptionExpiresAt : Option Nat
deriving Repr, DecidableEq

/-- A video row (only the fields the orchestrator reads). -/
structure Video where
  id : Nat
  filePath : Option String
deriving Repr, DecidableEq

/-- A `processing_results` row (the Job of the spec). -/
structure JobRow where
  id : Nat
  videoId : Nat
  userId : Option Nat
  status : String
  progress : Nat
  errorMessage : Option String
deriving Repr, DecidableEq

/-- A `highlight_clips` row. -/
structure HighlightRow where
  id : Nat
  processingResultId : Nat
  title : String
  filePath : String
  duration : Nat
  startTime : Nat
  endTime : Nat
deriving Repr, DecidableEq

/-- A `thumbnails` row. -/
structure ThumbnailRow where
  id : Nat
  processingResultId : Nat
  filePath : String
  timestamp : Nat
  width : Nat
  height : Nat
deriving Repr, DecidableEq

/-- A `captions` row. -/
structure CaptionRow where
  id : Nat
  processingResultId : Nat
  platform : String
  content : String
  hashtags : String
deriving Repr, DecidableEq

/-- The relational store plus the current wall-clock time and the
`lastID` generator, and the set of files on disk (for cleanup). -/
structure DB where
  now : Nat
  users : List User
  videos : List Video
  jobs : List JobRow
  highlights : List HighlightRow
  thumbnails : List ThumbnailRow
  captions : List CaptionRow
  files : List String
  nextId : Nat
deriving Repr, DecidableEq

/-- A thrown JS error: its `message`, and its HTTP status when it is an
`HttpError`. -/
structure JsError where
  message : String
  status : Option Nat
deriving Repr, DecidableEq

/-- The result shape of `CreditService.checkCredits`. -/
structure CreditCheckResult where
  canProceed : Bool
  user : Option User
  reason : Option String
deriving Repr, DecidableEq

/-- `SELECT ... FROM users WHERE id = ?` (first matching row). -/
def findUser (userId : Nat) (s : DB) : Option User :=
  s.users.find? fun u => u.id == userId

/-- The credit balance currently stored for a user. -/
def creditsOf (userId : Nat) (s : DB) : Option Int :=
  (findUser userId s).map User.credits

/-- `UPDATE users SET is_subscribed = ?, subscription_expires_at = ? WHERE id = ?`
(`CreditService.updateSubscriptionStatus`; resolves whether or not a row matched). -/
def updateSubscriptionStatus (userId : Nat) (isSubscribed : Bool)
    (expiresAt : Option Nat) (s : DB) : DB :=
  { s with users := s.users.map fun u =>
      if u.id == userId then
        { u with isSubscribed := isSubscribed, subscriptionExpiresAt := expiresAt }
      else u }

/-- The balance evaluation `checkCredits` falls through to:
deny a non-subscriber whose balance is ≤ 0, allow everyone else. -/
def balanceCheck (userData : User) (s : DB) : CreditCheckResult × DB :=
  if !userData.isSubscribed && decide (userData.credits ≤ 0) then
    ({ canProceed := false, user := some userData, reason := some "Insufficient credits" }, s)
  else
    ({ canProceed := true, user := some userData, reason := none }, s)

/-- `CreditService.checkCredits`: missing user id is denied, unknown user is
denied, an unexpired subscription always proceeds, an expired subscription is
downgraded in the store and then evaluated on balance, and everyone else is
evaluated on balance. -/
def checkCredits (userId : Option Nat) (s : DB) : CreditCheckResult × DB :=
  match userId with
  | none =>
      ({ canProceed := false, user := none, reason := some "Authentication required" }, s)
  | some uid =>
    match findUser uid s with
    | none =>
        ({ canProceed := false, user := none, reason := some "User not found" }, s)
    | some userData =>
      match userData.subscriptionExpiresAt with
      | some expirationDate =>
        if userData.isSubscribed then
          if s.now < expirationDate then
            ({ canProceed := true, user := some userData, reason := none }, s)
          else
            balanceCheck
              { userData with isSubscribed := false, subscriptionExpiresAt := none }
              (updateSubscriptionStatus uid false none s)
        else balanceCheck userData s
      | none => balanceCheck userData s

/-- The conditional decrement
`UPDATE users SET credits = credits - 1 WHERE id = ? AND credits > 0`:
zero affected rows reject with the insufficient-credits error. -/
def condDeductUpdate (userId : Nat) (s : DB) : Except JsError Unit × DB :=
  if (s.users.countP fun u => u.id == userId && decide (0 < u.credits)) == 0 then
    (.error { message := "Failed to deduct credit - insufficient credits", status := none }, s)
  else
    (.ok (), { s with users := s.users.map fun u =>
        if u.id == userId && decide (0 < u.credits) then
          { u with credits := u.credits - 1 }
        else u })

/-- `CreditService.deductCredits`: re-checks credits unless `userInfo` is
supplied, is a no-op for a subscribed user object, and otherwise runs the
balance-guarded conditional decrement. -/
def deductCredits (userId : Nat) (userInfo : Option User) (s : DB) :
    Except JsError Unit × DB :=
  match userInfo with
  | some user =>
    if user.isSubscribed then (.ok (), s) else condDeductUpdate userId s
  | none =>
    let checked := checkCredits (some userId) s
    let creditCheck := checked.1
    let s1 := checked.2
    if !creditCheck.canProceed then
      (.error { message := creditCheck.reason.getD "Cannot deduct credits",
                status := some 402 }, s1)
    else
      match creditCheck.user with
      | some user =>
        if user.isSubscribed then (.ok (), s1) else condDeductUpdate userId s1
      | none => condDeductUpdate userId s1

/-- `CreditService.getUserCredits`: the user object `checkCredits` reports. -/
def getUserCredits (userId : Nat) (s : DB) : Option User × DB :=
  let checked := checkCredits (some userId) s
  (checked.1.user, checked.2)

/-- Which internal store call of `refundCredits` rejects, if any: the
user lookup or the `credits + 1` update.  The deterministic embedded
store never fails on its own, so the fault is an explicit parameter. -/
inductive RefundFault where
  | noFault : RefundFault
  | lookupError : RefundFault
  | updateError : RefundFault
deriving Repr, DecidableEq

/-- The unconditional increment `UPDATE users SET credits = credits + 1 WHERE id = ?`. -/
def refundUpdate (userId : Nat) (s : DB) : DB :=
  { s with users := s.users.map fun u =>
      if u.id == userId then { u with credits := u.credits + 1 } else u }

/-- The body of `refundCredits` before its enclosing `try`: the error slot is
`some _` exactly when a store call rejected, and the returned state is the
store at the moment control left the body. -/
def refundCreditsBody (userId : Nat) (fault : RefundFault) (s : DB) :
    Option JsError × DB :=
  match fault with
  | .lookupError => (some { message := "lookup failed", status := none }, s)
  | _ =>
    let fetched := getUserCredits userId s
    match fetched.1 with
    | none => (none, fetched.2)
    | some user =>
      if user.isSubscribed then (none, fetched.2)
      else
        match fault with
        | .updateError => (some { message := "update failed", status := none }, fetched.2)
        | _ => (none, refundUpdate userId fetched.2)

/-- `CreditService.refundCredits`: the whole body runs inside `try`/`catch`
and the catch only logs, so the method is total — it never throws. -/
def refundCredits (userId : Nat) (fault : RefundFault) (s : DB) : DB :=
  (refundCreditsBody userId fault s).2

/-- `CreditService.executeWithRollback`: deduct, then run the operation;
on operation failure refund (best-effort) and re-throw the original error. -/
def executeWithRollback {α : Type} (userId : Nat) (fault : RefundFault)
    (operation : DB → Except JsError α × DB) (s : DB) :
    Except JsError α × DB :=
  match deductCredits userId none s with
  | (.error e, s1) => (.error e, s1)
  | (.ok _, s1) =>
    match operation s1 with
    | (.ok result, s2) => (.ok result, s2)
    | (.error e, s2) => (.error e, refundCredits userId fault s2)

/-- Does this user row carry an active (unexpired or perpetual) subscription
at time `now`? -/
def hasActiveSubscription (u : User) (now : Nat) : Bool :=
  u.isSubscribed &&
    match u.subscriptionExpiresAt with
    | some expirationDate => decide (now < expirationDate)
    | none => true

/-! ## Transaction coordinator (`database/transaction.ts`)

An operation of a batch is a state transformer on an abstract store `σ`
producing a per-operation result `ρ` (a read leaves `σ` unchanged, a write
updates it), or rejecting with the store's error message. -/

/-- One queued operation of a `DatabaseTransaction` (a `{query, params}` pair,
embedded as the state transformer the store would run for it). -/
structure TxOp (σ ρ : Type) where
  run : σ → Except String (ρ × σ)

namespace DatabaseTransaction

/-- Run the queued operations in order inside the open transaction,
collecting each operation's result at its own index; stop at the first
rejection. -/
def runOps {σ ρ : Type} : List (TxOp σ ρ) → σ → Except String (List ρ × σ)
  | [], s => .ok ([], s)
  | op :: rest, s =>
    match op.run s with
    | .error e => .error e
    | .ok (r, s1) =>
      match runOps rest s1 with
      | .error e => .error e
      | .ok (rs, s2) => .ok (r :: rs, s2)

/-- `DatabaseTransaction.execute`: `BEGIN`; run every operation; on any
failure `ROLLBACK` (the store returns to its pre-transaction state) and
reject once with the underlying cause; if all succeed, `COMMIT` and resolve
with the full ordered result array. -/
def execute {σ ρ : Type} (operations : List (TxOp σ ρ)) (s : σ) :
    Except String (List ρ) × σ :=
  match runOps operations s with
  | .error e => (.error ("Transaction failed: " ++ e), s)
  | .ok (results, s1) => (.ok results, s1)

end DatabaseTransaction

/-! ## Job orchestrator (`POST /process/:id`) and status read model -/

/-- `SELECT * FROM videos WHERE id = ?`. -/
def findVideo (videoId : Nat) (s : DB) : Option Video :=
  s.videos.find? fun v => v.id == videoId

/-- `SELECT ... FROM processing_results ... WHERE pr.id = ?`. -/
def findJob (resultId : Nat) (s : DB) : Option JobRow :=
  s.jobs.find? fun j => j.id == resultId

/-- `INSERT INTO processing_results (video_id, user_id, status, progress)
VALUES (?, ?, 'processing', 0)`, returning `lastID`. -/
def insertProcessingResult (videoId : Nat) (userId : Option Nat) (s : DB) :
    Nat × DB :=
  let resultId := s.nextId
  (resultId,
   { s with
      nextId := resultId + 1,
      jobs := s.jobs ++ [{ id := resultId, videoId := videoId, userId := userId,
                           status := "processing", progress := 0,
                           errorMessage := none }] })

/-- The synchronous part of the `POST /process/:id` handler: credit gate,
video lookup, job-row insert.  Returns the `processingId` sent to the client,
or the `HttpError` passed to `next`, together with the store state. -/
def processPost (videoId : Nat) (userId : Option Nat) (s : DB) :
    Except JsError Nat × DB :=
  let gate : Option JsError × DB :=
    match userId with
    | some uid =>
      let checked := checkCredits (some uid) s
      if checked.1.canProceed then (none, checked.2)
      else (some { message := checked.1.reason.getD "Insufficient credits",
                   status := some 402 }, checked.2)
    | none => (none, s)
  match gate with
  | (some e, s1) => (.error e, s1)
  | (none, s1) =>
    match findVideo videoId s1 with
    | none => (.error { message := "Video not found", status := some 404 }, s1)
    | some _ =>
      let inserted := insertProcessingResult videoId userId s1
      (.ok inserted.1, inserted.2)

/-- `UPDATE processing_results SET status = 'failed', error_message = ? WHERE id = ?`. -/
def setJobFailed (resultId : Nat) (msg : String) (s : DB) : DB :=
  { s with jobs := s.jobs.map fun j =>
      if j.id == resultId then { j with status := "failed", errorMessage := some msg }
      else j }

/-- The catch block of the detached background task: best-effort file cleanup
(its own failure is logged and swallowed), then mark the job failed with the
thrown error's message.  `cleanup` abstracts
`fileManager.cleanupProcessingFiles` / `cleanupFrames`, acting on the file set. -/
def backgroundCatch (resultId : Nat) (errMsg : String)
    (cleanup : List String → Except String (List String)) (s : DB) : DB :=
  let s1 :=
    match cleanup s.files with
    | .ok remaining => { s with files := remaining }
    | .error _ => s
  setJobFailed resultId errMsg s1

/-- The detached background task of `POST /process/:id`: run
`performProcessing` through `executeWithRollback` when a user is attached,
directly otherwise; any error lands in the catch block. -/
def backgroundTask {α : Type} (resultId : Nat) (userId : Option Nat)
    (fault : RefundFault) (performProcessing : DB → Except JsError α × DB)
    (cleanup : List String → Except String (List String)) (s : DB) : DB :=
  let ran :=
    match userId with
    | some uid => executeWithRollback uid fault performProcessing s
    | none => performProcessing s
  match ran with
  | (.ok _, s1) => s1
  | (.error e, s1) => backgroundCatch resultId e.message cleanup s1

/-! ### Status read model (`GET /process/:id`) -/

/-- `ORDER BY start_time` on highlight rows. -/
def byStartTime : HighlightRow → HighlightRow → Prop :=
  fun a b => a.startTime ≤ b.startTime

instance : DecidableRel byStartTime :=
  fun a b => inferInstanceAs (Decidable (a.startTime ≤ b.startTime))

instance : IsTotal HighlightRow byStartTime :=
  ⟨fun a b => Nat.le_total a.startTime b.startTime⟩

instance : IsTrans HighlightRow byStartTime :=
  ⟨fun _ _ _ => Nat.le_trans⟩

/-- `ORDER BY timestamp` on thumbnail rows. -/
def byTimestamp : ThumbnailRow → ThumbnailRow → Prop :=
  fun a b => a.timestamp ≤ b.timestamp

instance : DecidableRel byTimestamp :=
  fun a b => inferInstanceAs (Decidable (a.timestamp ≤ b.timestamp))

instance : IsTotal ThumbnailRow byTimestamp :=
  ⟨fun a b => Nat.le_total a.timestamp b.timestamp⟩

instance : IsTrans ThumbnailRow byTimestamp :=
  ⟨fun _ _ _ => Nat.le_trans⟩

/-- `SELECT * FROM highlight_clips WHERE processing_result_id = ?`. -/
def highlightsFor (resultId : Nat) (s : DB) : List HighlightRow :=
  s.highlights.filter fun h => h.processingResultId == resultId

/-- `SELECT * FROM thumbnails WHERE processing_result_id = ?`. -/
def thumbnailsFor (resultId : Nat) (s : DB) : List ThumbnailRow :=
  s.thumbnails.filter fun t => t.processingResultId == resultId

/-- `SELECT * FROM captions WHERE processing_result_id = ?`. -/
def captionsFor (resultId : Nat) (s : DB) : List CaptionRow :=
  s.captions.filter fun c => c.processingResultId == resultId

/-- The JSON body of `GET /process/:id`. -/
structure StatusResponse where
  id : Nat
  videoId : Nat
  status : String
  progress : Nat
  errorMessage : Option String
  highlights : List HighlightRow
  thumbnails : List ThumbnailRow
  captions : List CaptionRow
deriving Repr, DecidableEq

/-- The `GET /process/:id` handler: 404 for an unknown id, 403 when an owned
job is read by anyone but its owner, and otherwise the job row — with the
ordered derived records exactly when `status = 'completed'` and empty arrays
otherwise. -/
def getStatus (processingId : Nat) (requester : Option Nat) (s : DB) :
    Except JsError StatusResponse :=
  match findJob processingId s with
  | none => .error { message := "Processing result not found", status := some 404 }
  | some result =>
    let allowed : Bool :=
      match result.userId with
      | some owner => requester == some owner
      | none => true
    if !allowed then
      .error { message := "Access denied", status := some 403 }
    else
      let derived :
          List HighlightRow × List ThumbnailRow × List CaptionRow :=
        if result.status == "completed" then
          (List.insertionSort byStartTime (highlightsFor processingId s),
           List.insertionSort byTimestamp (thumbnailsFor processingId s),
           captionsFor processingId s)
        else ([], [], [])
      .ok { id := result.id, videoId := result.videoId, status := result.status,
            progress := result.progress, errorMessage := result.errorMessage,
            highlights := derived.1, thumbnails := derived.2.1,
            captions := derived.2.2 }

/-! ## Interleaving model for the concurrent-deduct race

`deductCredits(userId)` makes two store calls: the `checkCredits` read and
the conditional decrement.  SQLite serializes individual statements, so a
concurrent execution of two calls is an interleaving of their store calls,
each of which is atomic.  A schedule is a list of picks (`true` steps call 1,
`false` steps call 2); a pick aimed at a finished call is a no-op. -/

/-- Program counter of one in-flight `deductCredits` call. -/
inductive CallPC where
  | start : CallPC
  | deducting : CallPC
  | doneOk : CallPC
  | doneErr : String → CallPC
deriving Repr, DecidableEq

/-- One atomic store call of `deductCredits(userId)` (the `userInfo`-less
path): from `start`, the `checkCredits` read and the local decision that
follows it; from `deducting`, the conditional decrement. -/
def stepCall (userId : Nat) (pc : CallPC) (s : DB) : CallPC × DB :=
  match pc with
  | .start =>
    let checked := checkCredits (some userId) s
    if !checked.1.canProceed then
      (.doneErr (checked.1.reason.getD "Cannot deduct credits"), checked.2)
    else
      match checked.1.user with
      | some user =>
        if user.isSubscribed then (.doneOk, checked.2) else (.deducting, checked.2)
      | none => (.deducting, checked.2)
  | .deducting =>
    match condDeductUpdate userId s with
    | (.ok _, s1) => (.doneOk, s1)
    | (.error e, s1) => (.doneErr e.message, s1)
  | pc => (pc, s)

/-- Run a schedule of picks over two concurrent `deductCredits` calls. -/
def runSchedule (userId : Nat) : List Bool → CallPC × CallPC × DB → CallPC × CallPC × DB
  | [], st => st
  | pick :: rest, (pc1, pc2, s) =>
    if pick then
      let stepped := stepCall userId pc1 s
      runSchedule userId rest (stepped.1, pc2, stepped.2)
    else
      let stepped := stepCall userId pc2 s
      runSchedule userId rest (pc1, stepped.1, stepped.2)

/-- Both failure messages a losing deduct can surface name insufficient
credits: the `checkCredits` denial reason or the zero-rows-affected error. -/
def insufficientCreditsMessage (m : String) : Bool :=
  m == "Insufficient credits" || m == "Failed to deduct credit - insufficient credits"

/-! ## General lemmas about the row-update pattern -/

/-- `find?` commutes with a row update that does not change the predicate. -/
theorem find?_map_comm {α : Type} (p : α → Bool) (f : α → α)
    (hf : ∀ a, p (f a) = p a) (l : List α) :
    (l.map f).find? p = (l.find? p).map f := by
  induction l with
  | nil => rfl
  | cons a t ih =>
    simp only [List.map_cons, List.find?_cons, hf]
    cases h : p a
    · simpa [h] using ih
    · simp [h]

/-- A row update that preserves a projection preserves the projected list. -/
theorem map_after_update {α β : Type} (f : α → α) (g : α → β)
    (hf : ∀ a, g (f a) = g a) (l : List α) :
    (l.map f).map g = l.map g := by
  induction l with
  | nil => rfl
  | cons a t ih => simp [hf, ih]

/-! ## Case-analysis lemmas for the credit ledger -/

theorem updateSubscriptionStatus_parts (userId : Nat) (b : Bool)
    (ex : Option Nat) (s : DB) :
    (updateSubscriptionStatus userId b ex s).now = s.now ∧
    (updateSubscriptionStatus userId b ex s).jobs = s.jobs ∧
    (updateSubscriptionStatus userId b ex s).videos = s.videos ∧
    (updateSubscriptionStatus userId b ex s).files = s.files ∧
    (updateSubscriptionStatus userId b ex s).nextId = s.nextId := by
  simp [updateSubscriptionStatus]

theorem findUser_updateSubscriptionStatus (userId uid : Nat) (b : Bool)
    (ex : Option Nat) (s : DB) :
    findUser uid (updateSubscriptionStatus userId b ex s)
      = (findUser uid s).map fun u =>
          if u.id == userId then
            { u with isSubscribed := b, subscriptionExpiresAt := ex }
          else u := by
  unfold findUser updateSubscriptionStatus
  exact find?_map_comm _ _ (fun a => by by_cases h : a.id == userId <;> simp [h]) _

theorem creditsOf_updateSubscriptionStatus (userId uid : Nat) (b : Bool)
    (ex : Option Nat) (s : DB) :
    creditsOf uid (updateSubscriptionStatus userId b ex s) = creditsOf uid s := by
  unfold creditsOf
  rw [findUser_updateSubscriptionStatus]
  cases h : findUser uid s with
  | none => rfl
  | some u =>
    simp only [Option.map_some']
    split <;> rfl

theorem findUser_refundUpdate_self (userId : Nat) (s : DB) (u : User)
    (hu : findUser userId s = some u) :
    findUser userId (refundUpdate userId s) = some { u with credits := u.credits + 1 } := by
  have hid : (u.id == userId) = true := by
    have h := List.find?_some hu
    simpa using h
  have heq : u.id = userId := by simpa using hid
  unfold findUser refundUpdate at *
  rw [find?_map_comm _ _ (fun a => by by_cases h : a.id == userId <;> simp [h]) _, hu]
  simp [heq]

theorem balanceCheck_nonsubscriber (u : User) (s : DB)
    (hsub : u.isSubscribed = false) :
    balanceCheck u s =
      if u.credits ≤ 0 then
        ({ canProceed := false, user := some u, reason := some "Insufficient credits" }, s)
      else ({ canProceed := true, user := some u, reason := none }, s) := by
  unfold balanceCheck
  by_cases hc : u.credits ≤ 0 <;> simp [hsub, hc]

/-- The `checkCredits` read at a non-subscribed stored row: pure balance
evaluation, no store mutation. -/
theorem checkCredits_nonsubscriber (uid : Nat) (s : DB) (u : User)
    (hu : findUser uid s = some u) (hsub : u.isSubscribed = false) :
    checkCredits (some uid) s =
      if u.credits ≤ 0 then
        ({ canProceed := false, user := some u, reason := some "Insufficient credits" }, s)
      else ({ canProceed := true, user := some u, reason := none }, s) := by
  unfold checkCredits
  simp only [hu]
  cases hex : u.subscriptionExpiresAt with
  | none => exact balanceCheck_nonsubscriber u s hsub
  | some e =>
    simp only [hsub, Bool.false_eq_true, if_false]
    exact balanceCheck_nonsubscriber u s hsub

/-- The `checkCredits` read at a row with an active subscription:
always allowed, no store mutation. -/
theorem checkCredits_active_subscriber (uid : Nat) (s : DB) (u : User)
    (hu : findUser uid s = some u)
    (hact : hasActiveSubscription u s.now = true) :
    checkCredits (some uid) s
      = ({ canProceed := true, user := some u, reason := none }, s) := by
  unfold hasActiveSubscription at hact
  unfold checkCredits
  simp only [hu]
  cases hex : u.subscriptionExpiresAt with
  | none =>
    have hsub : u.isSubscribed = true := by simpa [hex] using hact
    simp [balanceCheck, hsub]
  | some e =>
    have h : u.isSubscribed = true ∧ s.now < e := by simpa [hex] using hact
    simp [h.1, h.2]

/-- The `checkCredits` read at a row with an expired subscription: the store
is downgraded and the downgraded row falls through to balance evaluation. -/
theorem checkCredits_expired_subscriber (uid : Nat) (s : DB) (u : User) (e : Nat)
    (hu : findUser uid s = some u) (hsub : u.isSubscribed = true)
    (hex : u.subscriptionExpiresAt = some e) (hle : e ≤ s.now) :
    checkCredits (some uid) s
      = balanceCheck { u with isSubscribed := false, subscriptionExpiresAt := none }
          (updateSubscriptionStatus uid false none s) := by
  unfold checkCredits
  simp only [hu, hex]
  simp [hsub, Nat.not_lt.mpr hle]

theorem balanceCheck_state (u : User) (s : DB) : (balanceCheck u s).2 = s := by
  unfold balanceCheck
  split <;> rfl

/-- `checkCredits` either leaves the store untouched or performs exactly the
expired-subscription downgrade. -/
theorem checkCredits_state (userId : Option Nat) (s : DB) :
    (checkCredits userId s).2 = s ∨
    ∃ uid, userId = some uid ∧
      (checkCredits userId s).2 = updateSubscriptionStatus uid false none s := by
  cases userId with
  | none => left; rfl
  | some uid =>
    unfold checkCredits
    cases hu : findUser uid s with
    | none => left; simp [hu]
    | some u =>
      simp only [hu]
      cases hex : u.subscriptionExpiresAt with
      | none =>
        left
        exact balanceCheck_state u s
      | some e =>
        by_cases hs : u.isSubscribed = true
        · by_cases hlt : s.now < e
          · left; simp [hs, hlt]
          · right
            refine ⟨uid, rfl, ?_⟩
            simp only [hs, hlt, if_true, if_false]
            exact balanceCheck_state _ _
        · left
          simp only [hs, if_false]
          exact balanceCheck_state u s

theorem checkCredits_parts (userId : Option Nat) (s : DB) :
    ((checkCredits userId s).2).now = s.now ∧
    ((checkCredits userId s).2).jobs = s.jobs ∧
    ((checkCredits userId s).2).videos = s.videos ∧
    ((checkCredits userId s).2).files = s.files ∧
    ((checkCredits userId s).2).nextId = s.nextId ∧
    ((checkCredits userId s).2).highlights = s.highlights ∧
    ((checkCredits userId s).2).thumbnails = s.thumbnails ∧
    ((checkCredits userId s).2).captions = s.captions := by
  rcases checkCredits_state userId s with h | ⟨uid, _, h⟩ <;>
    rw [h] <;> simp [updateSubscriptionStatus]

theorem condDeductUpdate_parts (userId : Nat) (s : DB) :
    ((condDeductUpdate userId s).2).now = s.now ∧
    ((condDeductUpdate userId s).2).jobs = s.jobs ∧
    ((condDeductUpdate userId s).2).videos = s.videos ∧
    ((condDeductUpdate userId s).2).files = s.files ∧
    ((condDeductUpdate userId s).2).nextId = s.nextId ∧
    ((condDeductUpdate userId s).2).highlights = s.highlights ∧
    ((condDeductUpdate userId s).2).thumbnails = s.thumbnails ∧
    ((condDeductUpdate userId s).2).captions = s.captions := by
  unfold condDeductUpdate
  split <;> simp

/-- The conditional decrement succeeds when the first stored row for the user
has a positive balance, and decrements exactly that row by one. -/
theorem condDeductUpdate_success (userId : Nat) (s : DB) (u : User)
    (hu : findUser userId s = some u) (hpos : 0 < u.credits) :
    (condDeductUpdate userId s).1 = .ok () ∧
    findUser userId ((condDeductUpdate userId s).2)
      = some { u with credits := u.credits - 1 } ∧
    ((condDeductUpdate userId s).2).users.map User.id = s.users.map User.id := by
  have hid : (u.id == userId) = true := by
    have h := List.find?_some hu
    simpa using h
  have hmem : u ∈ s.users := List.mem_of_find?_eq_some hu
  have hp : (fun v => v.id == userId && decide (0 < v.credits)) u = true := by
    simp only [hid, Bool.true_and]
    exact decide_eq_true hpos
  have hcount : (s.users.countP fun v => v.id == userId && decide (0 < v.credits)) ≠ 0 := by
    intro h0
    exact absurd hp (by simpa using (List.countP_eq_zero.mp h0) u hmem)
  have e2 : (condDeductUpdate userId s).2
      = { s with users := s.users.map fun v =>
            if v.id == userId && decide (0 < v.credits) then
              { v with credits := v.credits - 1 } else v } := by
    unfold condDeductUpdate
    rw [if_neg (by simpa using hcount)]
  refine ⟨?_, ?_, ?_⟩
  · unfold condDeductUpdate
    rw [if_neg (by simpa using hcount)]
  · rw [e2]
    unfold findUser
    rw [find?_map_comm (fun v => v.id == userId) _
          (fun a => by
            by_cases h : a.id == userId <;> by_cases hc : 0 < a.credits <;>
              simp [h, hc]) s.users]
    have hu' : List.find? (fun v => v.id == userId) s.users = some u := hu
    rw [hu']
    have hp' : (u.id == userId && decide (0 < u.credits)) = true := hp
    simp only [Option.map_some', hp', if_true]
  · rw [e2]
    exact map_after_update _ _
      (fun a => by
        by_cases h : a.id == userId && decide (0 < a.credits) <;> simp [h]) _

/-- The conditional decrement affects zero rows — and therefore rejects with
the insufficient-credits error, leaving the store unchanged. -/
theorem condDeductUpdate_failure (userId : Nat) (s : DB)
    (hz : s.users.countP (fun v => v.id == userId && decide (0 < v.credits)) = 0) :
    condDeductUpdate userId s =
      (.error { message := "Failed to deduct credit - insufficient credits",
                status := none }, s) := by
  unfold condDeductUpdate
  simp [hz]

/-- With unique user ids, a stored balance ≤ 0 for the user means the guarded
decrement matches zero rows. -/
theorem countP_deduct_zero_of_nonpos (userId : Nat) (s : DB) (u : User)
    (hn : (s.users.map User.id).Nodup)
    (hu : findUser userId s = some u) (hc : u.credits ≤ 0) :
    s.users.countP (fun v => v.id == userId && decide (0 < v.credits)) = 0 := by
  rw [List.countP_eq_zero]
  intro a ha hpa
  have hmem : u ∈ s.users := List.mem_of_find?_eq_some hu
  have hidu : u.id = userId := by
    have h := List.find?_some hu
    simpa using h
  have hpa' : a.id = userId ∧ 0 < a.credits := by simpa using hpa
  have hau : a = u := by
    refine List.inj_on_of_nodup_map hn ha hmem ?_
    rw [hpa'.1, hidu]
  exact absurd (hau ▸ hpa'.2) (by omega)

/-- A user with no stored row makes the guarded decrement match zero rows. -/
theorem countP_deduct_zero_of_missing (userId : Nat) (s : DB)
    (hu : findUser userId s = none) :
    s.users.countP (fun v => v.id == userId && decide (0 < v.credits)) = 0 := by
  rw [List.countP_eq_zero]
  intro a ha hpa
  have hpa' : a.id = userId ∧ 0 < a.credits := by simpa using hpa
  have := List.find?_eq_none.mp hu a ha
  simp [hpa'.1] at this

/-! ### `deductCredits` by caller situation -/

theorem deductCredits_userInfo_subscribed (userId : Nat) (uInfo : User) (s : DB)
    (hs : uInfo.isSubscribed = true) :
    deductCredits userId (some uInfo) s = (.ok (), s) := by
  unfold deductCredits
  simp [hs]

theorem deductCredits_userInfo_nonsubscribed (userId : Nat) (uInfo : User) (s : DB)
    (hs : uInfo.isSubscribed = false) :
    deductCredits userId (some uInfo) s = condDeductUpdate userId s := by
  unfold deductCredits
  simp [hs]

theorem deductCredits_none_notfound (userId : Nat) (s : DB)
    (hu : findUser userId s = none) :
    deductCredits userId none s
      = (.error { message := "User not found", status := some 402 }, s) := by
  unfold deductCredits checkCredits
  simp [hu]

theorem deductCredits_none_active (userId : Nat) (s : DB) (u : User)
    (hu : findUser userId s = some u)
    (hact : hasActiveSubscription u s.now = true) :
    deductCredits userId none s = (.ok (), s) := by
  have hsub : u.isSubscribed = true := by
    unfold hasActiveSubscription at hact
    exact (Bool.and_eq_true ..).mp hact |>.1
  unfold deductCredits
  rw [checkCredits_active_subscriber userId s u hu hact]
  simp [hsub]

theorem deductCredits_none_nonsubscriber (userId : Nat) (s : DB) (u : User)
    (hu : findUser userId s = some u) (hsub : u.isSubscribed = false) :
    deductCredits userId none s =
      if u.credits ≤ 0 then
        (.error { message := "Insufficient credits", status := some 402 }, s)
      else condDeductUpdate userId s := by
  unfold deductCredits
  rw [checkCredits_nonsubscriber userId s u hu hsub]
  by_cases hc : u.credits ≤ 0 <;> simp [hc, hsub]

theorem deductCredits_none_expired (userId : Nat) (s : DB) (u : User) (e : Nat)
    (hu : findUser userId s = some u) (hsub : u.isSubscribed = true)
    (hex : u.subscriptionExpiresAt = some e) (hle : e ≤ s.now) :
    deductCredits userId none s =
      if u.credits ≤ 0 then
        (.error { message := "Insufficient credits", status := some 402 },
         updateSubscriptionStatus userId false none s)
      else condDeductUpdate userId (updateSubscriptionStatus userId false none s) := by
  unfold deductCredits
  rw [checkCredits_expired_subscriber userId s u e hu hsub hex hle,
      balanceCheck_nonsubscriber _ _ (by rfl)]
  by_cases hc : u.credits ≤ 0 <;> simp [hc]

theorem runOps_length {σ ρ : Type} (ops : List (TxOp σ ρ)) :
    ∀ (s : σ) (rs : List ρ) (s1 : σ),
      DatabaseTransaction.runOps ops s = .ok (rs, s1) → rs.length = ops.length := by
  induction ops with
  | nil =>
    intro s rs s1 h
    simp only [DatabaseTransaction.runOps] at h
    cases h
    rfl
  | cons op rest ih =>
    intro s rs s1 h
    simp only [DatabaseTransaction.runOps] at h
    cases hop : op.run s with
    | error e => simp only [hop] at h; simp at h
    | ok v =>
      obtain ⟨r, s'⟩ := v
      simp only [hop] at h
      cases hrest : DatabaseTransaction.runOps rest s' with
      | error e => simp only [hrest] at h; simp at h
      | ok w =>
        obtain ⟨rs', s2⟩ := w
        simp only [hrest] at h
        cases h
        have := ih s' rs' _ hrest
        simp [this]

/-! ## Concrete demonstration store for the witnesses -/

/-- A store with only a users table (the credit ledger touches nothing else). -/
def mkDb (now : Nat) (users : List User) : DB :=
  { now := now, users := users, videos := [], jobs := [], highlights := [],
    thumbnails := [], captions := [], files := [], nextId := 1 }

/-- Record flag says subscribed, but the subscription expired at t = 50. -/
def expiredSubUser : User :=
  { id := 1, credits := 5, isSubscribed := true, subscriptionExpiresAt := some 50 }

def brokeUser : User :=
  { id := 3, credits := 0, isSubscribed := false, subscriptionExpiresAt := none }

/-- Subscribed with no stored expiry: the perpetual-subscriber shape. -/
def perpetualSubUser : User :=
  { id := 4, credits := -3, isSubscribed := true, subscriptionExpiresAt := none }

def payingUser : User :=
  { id := 5, credits := 2, isSubscribed := false, subscriptionExpiresAt := none }

def demoDb : DB :=
  { now := 100,
    users := [expiredSubUser, brokeUser, perpetualSubUser, payingUser],
    videos := [{ id := 9, filePath := some "v.mp4" }],
    jobs := [{ id := 1, videoId := 9, userId := some 5, status := "processing",
               progress := 0, errorMessage := none }],
    highlights := [], thumbnails := [], captions := [],
    files := ["frame-1.png"], nextId := 2 }

/-! ## Claims -/

/-- C1: for every batch submitted to the Transaction Coordinator's
`execute()`, if any operation fails a rollback is issued — the store is back
at its pre-transaction state — and the caller gets a single rejection naming
the underlying cause; if and only if every operation succeeds, the batch
commits and the caller receives the full ordered result array (there is no
partial-success value). -/
theorem execute_all_or_nothing {σ ρ : Type} (operations : List (TxOp σ ρ)) (s : σ) :
    (∀ e, DatabaseTransaction.runOps operations s = .error e →
        DatabaseTransaction.execute operations s
          = (.error ("Transaction failed: " ++ e), s)) ∧
    (∀ results s1, DatabaseTransaction.runOps operations s = .ok (results, s1) →
        DatabaseTransaction.execute operations s = (.ok results, s1) ∧
        results.length = operations.length) ∧
    (∀ results, (DatabaseTransaction.execute operations s).1 = .ok results →
        ∃ s1, DatabaseTransaction.runOps operations s = .ok (results, s1)) := by
  refine ⟨?_, ?_, ?_⟩
  · intro e he
    unfold DatabaseTransaction.execute
    rw [he]
  · intro results s1 h
    unfold DatabaseTransaction.execute
    rw [h]
    exact ⟨rfl, runOps_length operations s results s1 h⟩
  · intro results h
    unfold DatabaseTransaction.execute at h
    cases hr : DatabaseTransaction.runOps operations s with
    | error e => rw [hr] at h; cases h
    | ok w =>
      obtain ⟨rs, s1⟩ := w
      rw [hr] at h
      cases h
      exact ⟨s1, rfl⟩

/-- C1 witness: a two-operation batch over an `Int` store whose second
operation fails is rolled back and rejected with the named cause. -/
theorem execute_all_or_nothing_witness :
    DatabaseTransaction.execute
        [TxOp.mk (fun n => .ok (n, n + 1)), TxOp.mk (fun _ => .error "boom")]
        (0 : Int)
      = (.error ("Transaction failed: " ++ "boom"), 0) :=
  (execute_all_or_nothing
      [TxOp.mk (fun n => .ok (n, n + 1)), TxOp.mk (fun _ => .error "boom")]
      (0 : Int)).1 "boom" rfl

/-- C5: the exact `checkCredits` case analysis — missing user id denied as
unauthenticated; unknown user denied; active (unexpired or perpetual)
subscription allowed regardless of balance with no store change; expired
subscription downgraded in the store and then evaluated on balance;
non-subscriber with balance ≤ 0 denied for insufficient credits; everyone
else allowed. -/
theorem checkCredits_case_analysis (s : DB) :
    (checkCredits none s
      = ({ canProceed := false, user := none,
           reason := some "Authentication required" }, s)) ∧
    (∀ uid, findUser uid s = none →
      checkCredits (some uid) s
        = ({ canProceed := false, user := none, reason := some "User not found" }, s)) ∧
    (∀ uid u, findUser uid s = some u → hasActiveSubscription u s.now = true →
      checkCredits (some uid) s
        = ({ canProceed := true, user := some u, reason := none }, s)) ∧
    (∀ uid u e, findUser uid s = some u → u.isSubscribed = true →
      u.subscriptionExpiresAt = some e → e ≤ s.now →
      checkCredits (some uid) s
        = (if u.credits ≤ 0 then
             ({ canProceed := false,
                user := some { u with
                                 isSubscribed := false,
                                 subscriptionExpiresAt := none },
                reason := some "Insufficient credits" },
              updateSubscriptionStatus uid false none s)
           else
             ({ canProceed := true,
                user := some { u with
                                 isSubscribed := false,
                                 subscriptionExpiresAt := none },
                reason := none },
              updateSubscriptionStatus uid false none s))) ∧
    (∀ uid u, findUser uid s = some u → u.isSubscribed = false → u.credits ≤ 0 →
      checkCredits (some uid) s
        = ({ canProceed := false, user := some u,
             reason := some "Insufficient credits" }, s)) ∧
    (∀ uid u, findUser uid s = some u → u.isSubscribed = false → 0 < u.credits →
      checkCredits (some uid) s
        = ({ canProceed := true, user := some u, reason := none }, s)) := by
  refine ⟨rfl, ?_, ?_, ?_, ?_, ?_⟩
  · intro uid hu
    unfold checkCredits
    simp [hu]
  · intro uid u hu hact
    exact checkCredits_active_subscriber uid s u hu hact
  · intro uid u e hu hsub hex hle
    rw [checkCredits_expired_subscriber uid s u e hu hsub hex hle,
        balanceCheck_nonsubscriber _ _ rfl]
  · intro uid u hu hsub hc
    rw [checkCredits_nonsubscriber uid s u hu hsub, if_pos hc]
  · intro uid u hu hsub hc
    rw [checkCredits_nonsubscriber uid s u hu hsub, if_neg (by omega)]

/-- C5 witness: the unknown-user, insufficient-credits and expired-subscriber
cases at the concrete demonstration store. -/
theorem checkCredits_case_analysis_witness :
    checkCredits (some 7) demoDb
      = ({ canProceed := false, user := none, reason := some "User not found" }, demoDb) ∧
    checkCredits (some 3) demoDb
      = ({ canProceed := false, user := some brokeUser,
           reason := some "Insufficient credits" }, demoDb) ∧
    checkCredits (some 1) demoDb
      = ({ canProceed := true,
           user := some { expiredSubUser with
                            isSubscribed := false,
                            subscriptionExpiresAt := none },
           reason := none },
         updateSubscriptionStatus 1 false none demoDb) := by
  refine ⟨?_, ?_, ?_⟩
  · exact (checkCredits_case_analysis demoDb).2.1 7 rfl
  · exact (checkCredits_case_analysis demoDb).2.2.2.2.1 3 brokeUser rfl rfl (by decide)
  · have h := (checkCredits_case_analysis demoDb).2.2.2.1 1 expiredSubUser 50
      rfl rfl rfl (by decide)
    rw [h, if_neg (by decide)]

/-- C10: a user row with the subscription flag set and no stored expiry is a
perpetual subscriber — `checkCredits` allows it at every balance without
touching the store (no downgrade), and `deductCredits` (without pre-fetched
info) returns with the store unchanged. -/
theorem perpetual_subscriber_contract (uid : Nat) (s : DB) (u : User)
    (hu : findUser uid s = some u) (hsub : u.isSubscribed = true)
    (hex : u.subscriptionExpiresAt = none) :
    checkCredits (some uid) s
      = ({ canProceed := true, user := some u, reason := none }, s) ∧
    deductCredits uid none s = (.ok (), s) := by
  have hact : hasActiveSubscription u s.now = true := by
    unfold hasActiveSubscription
    simp [hsub, hex]
  exact ⟨checkCredits_active_subscriber uid s u hu hact,
         deductCredits_none_active uid s u hu hact⟩

/-- C10 witness: the perpetual subscriber with a negative balance is allowed
and never charged. -/
theorem perpetual_subscriber_contract_witness :
    checkCredits (some 4) demoDb
      = ({ canProceed := true, user := some perpetualSubUser, reason := none }, demoDb) ∧
    deductCredits 4 none demoDb = (.ok (), demoDb) :=
  perpetual_subscriber_contract 4 demoDb perpetualSubUser rfl rfl rfl

theorem deductCredits_none_state (userId : Nat) (s : DB) :
    (deductCredits userId none s).2 = (checkCredits (some userId) s).2 ∨
    (deductCredits userId none s).2
      = (condDeductUpdate userId ((checkCredits (some userId) s).2)).2 := by
  unfold deductCredits
  cases hcp : (checkCredits (some userId) s).1.canProceed with
  | false => left; simp [hcp]
  | true =>
    cases huo : (checkCredits (some userId) s).1.user with
    | none => right; simp [hcp, huo]
    | some u =>
      by_cases hs : u.isSubscribed = true
      · left; simp [hcp, huo, hs]
      · right; simp [hcp, huo, hs]

/-- The only store mutations a `deductCredits` call can make: none, the
guarded decrement, the expiry downgrade, or downgrade followed by decrement. -/
theorem deductCredits_state (userId : Nat) (uInfo : Option User) (s : DB) :
    (deductCredits userId uInfo s).2 = s ∨
    (deductCredits userId uInfo s).2 = (condDeductUpdate userId s).2 ∨
    (deductCredits userId uInfo s).2 = updateSubscriptionStatus userId false none s ∨
    (deductCredits userId uInfo s).2
      = (condDeductUpdate userId (updateSubscriptionStatus userId false none s)).2 := by
  cases uInfo with
  | some u =>
    by_cases hs : u.isSubscribed = true
    · left
      rw [deductCredits_userInfo_subscribed userId u s hs]
    · right; left
      rw [deductCredits_userInfo_nonsubscribed userId u s (by simpa using hs)]
  | none =>
    rcases deductCredits_none_state userId s with h | h <;>
      rcases checkCredits_state (some userId) s with hc | ⟨uid', heq, hc⟩
    · left; rw [h, hc]
    · obtain rfl : uid' = userId := (Option.some.inj heq).symm
      right; right; left
      rw [h, hc]
    · right; left
      rw [h, hc]
    · obtain rfl : uid' = userId := (Option.some.inj heq).symm
      right; right; right
      rw [h, hc]

theorem nonneg_after_updateSubscriptionStatus (userId : Nat) (b : Bool)
    (ex : Option Nat) (s : DB) (h : ∀ u ∈ s.users, 0 ≤ u.credits) :
    ∀ u ∈ (updateSubscriptionStatus userId b ex s).users, 0 ≤ u.credits := by
  intro u hu
  unfold updateSubscriptionStatus at hu
  obtain ⟨v, hv, he⟩ := List.mem_map.mp hu
  subst he
  by_cases hc : (v.id == userId) = true <;> simpa [hc] using h v hv

theorem nonneg_after_condDeductUpdate (userId : Nat) (s : DB)
    (h : ∀ u ∈ s.users, 0 ≤ u.credits) :
    ∀ u ∈ ((condDeductUpdate userId s).2).users, 0 ≤ u.credits := by
  unfold condDeductUpdate
  split
  · exact h
  · intro u hu
    obtain ⟨v, hv, he⟩ := List.mem_map.mp hu
    subst he
    by_cases hc : (v.id == userId && decide (0 < v.credits)) = true
    · have hpos : 0 < v.credits := of_decide_eq_true ((Bool.and_eq_true ..).mp hc).2
      simp only [hc, if_true]
      omega
    · simpa [hc] using h v hv

/-- C3 counterexample: `deductCredits` does change the credits of a user
whose record says `isSubscribed = true` — when the stored expiry has passed,
the call downgrades the row and then decrements it from 5 to 4. -/
theorem deductCredits_changes_flagged_subscriber :
    (findUser 1 (mkDb 100 [expiredSubUser])).map User.isSubscribed = some true ∧
    creditsOf 1 (mkDb 100 [expiredSubUser]) = some 5 ∧
    creditsOf 1 ((deductCredits 1 none (mkDb 100 [expiredSubUser])).2) = some 4 := by
  refine ⟨rfl, rfl, ?_⟩
  decide

/-- C3 amended: `deductCredits` never changes the credits of a user whose
subscription is active (unexpired or without stored expiry) or who is passed
in as subscribed pre-fetched info — an expired flagged subscriber is instead
downgraded and then charged like a non-subscriber; a non-subscriber is
decremented by exactly one through the balance-guarded conditional update,
which rejects with an insufficient-credits error when it affects zero rows;
hence balances starting ≥ 0 never go below zero. -/
theorem deductCredits_ledger_invariants (userId : Nat) (s : DB) :
    (∀ uInfo : User, uInfo.isSubscribed = true →
        deductCredits userId (some uInfo) s = (.ok (), s)) ∧
    (∀ u, findUser userId s = some u → hasActiveSubscription u s.now = true →
        deductCredits userId none s = (.ok (), s)) ∧
    (∀ u, findUser userId s = some u → u.isSubscribed = false → 0 < u.credits →
        (deductCredits userId none s).1 = .ok () ∧
        creditsOf userId ((deductCredits userId none s).2) = some (u.credits - 1)) ∧
    ((s.users.countP fun v => v.id == userId && decide (0 < v.credits)) = 0 →
        condDeductUpdate userId s
          = (.error { message := "Failed to deduct credit - insufficient credits",
                      status := none }, s)) ∧
    (∀ u, findUser userId s = some u → u.isSubscribed = false → u.credits ≤ 0 →
        deductCredits userId none s
          = (.error { message := "Insufficient credits", status := some 402 }, s)) ∧
    (∀ uInfo, (∀ u ∈ s.users, 0 ≤ u.credits) →
        ∀ u' ∈ ((deductCredits userId uInfo s).2).users, 0 ≤ u'.credits) := by
  refine ⟨?_, ?_, ?_, ?_, ?_, ?_⟩
  · intro uInfo hs
    exact deductCredits_userInfo_subscribed userId uInfo s hs
  · intro u hu hact
    exact deductCredits_none_active userId s u hu hact
  · intro u hu hsub hpos
    rw [deductCredits_none_nonsubscriber userId s u hu hsub, if_neg (by omega)]
    obtain ⟨h1, h2, _⟩ := condDeductUpdate_success userId s u hu hpos
    refine ⟨h1, ?_⟩
    unfold creditsOf
    rw [h2]
    rfl
  · intro hz
    exact condDeductUpdate_failure userId s hz
  · intro u hu hsub hc
    rw [deductCredits_none_nonsubscriber userId s u hu hsub, if_pos hc]
  · intro uInfo h u' hu'
    rcases deductCredits_state userId uInfo s with hst | hst | hst | hst <;> rw [hst] at hu'
    · exact h u' hu'
    · exact nonneg_after_condDeductUpdate userId s h u' hu'
    · exact nonneg_after_updateSubscriptionStatus userId false none s h u' hu'
    · exact nonneg_after_condDeductUpdate userId _
        (nonneg_after_updateSubscriptionStatus userId false none s h) u' hu'

/-- C3 amended witness: the paying non-subscriber is charged exactly one
credit, the broke user is refused, and balances stay non-negative. -/
theorem deductCredits_ledger_invariants_witness :
    ((deductCredits 5 none demoDb).1 = .ok () ∧
      creditsOf 5 ((deductCredits 5 none demoDb).2) = some 1) ∧
    deductCredits 3 none demoDb
      = (.error { message := "Insufficient credits", status := some 402 }, demoDb) := by
  constructor
  · have h := (deductCredits_ledger_invariants 5 demoDb).2.2.1 payingUser rfl rfl
      (by decide)
    simpa using h
  · exact (deductCredits_ledger_invariants 3 demoDb).2.2.2.2.1 brokeUser rfl rfl
      (by decide)

/-- C7: a request carrying a userId that `checkCredits` denies fails
synchronously with a 402 payment-required error naming the denial reason and
no job row is created; a job row — status `'processing'`, progress 0 — is
appended only on requests whose credit check passed. -/
theorem processPost_denial_no_job (videoId : Nat) (userId : Option Nat) (s : DB) :
    (∀ uid, userId = some uid → (checkCredits (some uid) s).1.canProceed = false →
      (processPost videoId userId s).1
        = .error { message := (checkCredits (some uid) s).1.reason.getD "Insufficient credits",
                   status := some 402 } ∧
      ((processPost videoId userId s).2).jobs = s.jobs) ∧
    (∀ rid s', processPost videoId userId s = (.ok rid, s') →
      (∀ uid, userId = some uid → (checkCredits (some uid) s).1.canProceed = true) ∧
      s'.jobs = s.jobs ++ [{ id := rid, videoId := videoId, userId := userId,
                             status := "processing", progress := 0,
                             errorMessage := none }]) := by
  constructor
  · rintro uid rfl hcp
    unfold processPost
    refine ⟨by simp [hcp], ?_⟩
    simp only [hcp, Bool.false_eq_true, if_false]
    exact (checkCredits_parts (some uid) s).2.1
  · intro rid s' hp
    unfold processPost at hp
    cases userId with
    | none =>
      cases hv : findVideo videoId s with
      | none => simp [hv] at hp
      | some v =>
        simp only [hv] at hp
        refine ⟨(fun uid h => by cases h), ?_⟩
        have h1 : (insertProcessingResult videoId none s).1 = rid :=
          Except.ok.inj (congrArg Prod.fst hp)
        have h2 : (insertProcessingResult videoId none s).2 = s' :=
          congrArg Prod.snd hp
        rw [← h2, ← h1]
        rfl
    | some uid =>
      cases hcp : (checkCredits (some uid) s).1.canProceed with
      | false => simp [hcp] at hp
      | true =>
        simp only [hcp, if_true] at hp
        cases hv : findVideo videoId ((checkCredits (some uid) s).2) with
        | none => simp [hv] at hp
        | some v =>
          simp only [hv] at hp
          refine ⟨(fun uid' h => by cases h; exact hcp), ?_⟩
          have h1 : (insertProcessingResult videoId (some uid) ((checkCredits (some uid) s).2)).1 = rid :=
            Except.ok.inj (congrArg Prod.fst hp)
          have h2 : (insertProcessingResult videoId (some uid) ((checkCredits (some uid) s).2)).2 = s' :=
            congrArg Prod.snd hp
          have hjobs : ((checkCredits (some uid) s).2).jobs = s.jobs :=
            (checkCredits_parts (some uid) s).2.1
          rw [← h2, ← h1]
          unfold insertProcessingResult
          simp [hjobs]

/-- C7 witness: the broke user's request is refused with 402 and creates no
job row; the paying user's request creates the `'processing'` row. -/
theorem processPost_denial_no_job_witness :
    ((processPost 9 (some 3) demoDb).1
        = .error { message := "Insufficient credits", status := some 402 } ∧
      ((processPost 9 (some 3) demoDb).2).jobs = demoDb.jobs) ∧
    ((processPost 9 (some 5) demoDb).2).jobs
      = demoDb.jobs ++ [{ id := 2, videoId := 9, userId := some 5,
                          status := "processing", progress := 0,
                          errorMessage := none }] := by
  constructor
  · have h := (processPost_denial_no_job 9 (some 3) demoDb).1 3 rfl (by decide)
    simpa using h
  · exact ((processPost_denial_no_job 9 (some 5) demoDb).2 2
      ((processPost 9 (some 5) demoDb).2) rfl).2

theorem findJob_setJobFailed_self (resultId : Nat) (msg : String) (s : DB)
    (j : JobRow) (hj : findJob resultId s = some j) :
    findJob resultId (setJobFailed resultId msg s)
      = some { j with status := "failed", errorMessage := some msg } := by
  have heq : j.id = resultId := by
    have h := List.find?_some hj
    simpa using h
  unfold findJob setJobFailed at *
  rw [find?_map_comm _ _ (fun a => by by_cases h : a.id == resultId <;> simp [h]) _, hj]
  simp [heq]

theorem findJob_backgroundCatch_self (resultId : Nat) (msg : String)
    (cleanup : List String → Except String (List String)) (s : DB) (j : JobRow)
    (hj : findJob resultId s = some j) :
    findJob resultId (backgroundCatch resultId msg cleanup s)
      = some { j with status := "failed", errorMessage := some msg } := by
  unfold backgroundCatch
  cases hc : cleanup s.files with
  | ok fs =>
    simp only
    exact findJob_setJobFailed_self resultId msg _ j hj
  | error err =>
    simp only
    exact findJob_setJobFailed_self resultId msg s j hj

/-- C4: when the detached background processing ends in an unhandled error,
the orchestrator runs the catch block — best-effort file cleanup first (its
own failure is swallowed, never re-thrown: `backgroundCatch` is total in
`cleanup`), then the job row is set to `'failed'` with the error's message
stored verbatim. -/
theorem backgroundTask_failure_contract {α : Type} (resultId : Nat)
    (userId : Option Nat) (fault : RefundFault)
    (performProcessing : DB → Except JsError α × DB)
    (cleanup : List String → Except String (List String)) (s : DB)
    (e : JsError) (s1 : DB) (j : JobRow)
    (hrun : (match userId with
             | some uid => executeWithRollback uid fault performProcessing s
             | none => performProcessing s) = (.error e, s1))
    (hj : findJob resultId s1 = some j) :
    backgroundTask resultId userId fault performProcessing cleanup s
      = backgroundCatch resultId e.message cleanup s1 ∧
    findJob resultId (backgroundTask resultId userId fault performProcessing cleanup s)
      = some { j with status := "failed", errorMessage := some e.message } := by
  have hbt : backgroundTask resultId userId fault performProcessing cleanup s
      = backgroundCatch resultId e.message cleanup s1 := by
    unfold backgroundTask
    rw [hrun]
  refine ⟨hbt, ?_⟩
  rw [hbt]
  exact findJob_backgroundCatch_self resultId e.message cleanup s1 j hj

/-- C4 witness: an anonymous job whose processing throws
"upstream unavailable" ends `'failed'` with that exact message. -/
theorem backgroundTask_failure_contract_witness :
    findJob 1 (backgroundTask 1 none RefundFault.noFault
        (fun t => ((.error { message := "upstream unavailable", status := none } :
                      Except JsError Unit), t))
        (fun _ => .ok []) demoDb)
      = some { id := 1, videoId := 9, userId := some 5, status := "failed",
               progress := 0, errorMessage := some "upstream unavailable" } :=
  (backgroundTask_failure_contract 1 none RefundFault.noFault
      (fun t => ((.error { message := "upstream unavailable", status := none } :
                    Except JsError Unit), t))
      (fun _ => .ok []) demoDb
      { message := "upstream unavailable", status := none } demoDb
      { id := 1, videoId := 9, userId := some 5, status := "processing",
        progress := 0, errorMessage := none } rfl rfl).2

/-! ### `refundCredits` by caller situation -/

theorem refundCredits_lookupError (userId : Nat) (s : DB) :
    refundCredits userId RefundFault.lookupError s = s := rfl

theorem refundCredits_notfound (userId : Nat) (s : DB)
    (hu : findUser userId s = none) :
    ∀ fault, refundCredits userId fault s = s := by
  intro fault
  cases fault with
  | lookupError => rfl
  | noFault =>
    unfold refundCredits refundCreditsBody getUserCredits checkCredits
    simp [hu]
  | updateError =>
    unfold refundCredits refundCreditsBody getUserCredits checkCredits
    simp [hu]

theorem refundCredits_active (userId : Nat) (s : DB) (u : User)
    (hu : findUser userId s = some u)
    (hact : hasActiveSubscription u s.now = true) :
    ∀ fault, refundCredits userId fault s = s := by
  have hsub : u.isSubscribed = true := by
    unfold hasActiveSubscription at hact
    exact ((Bool.and_eq_true ..).mp hact).1
  intro fault
  cases fault with
  | lookupError => rfl
  | noFault =>
    unfold refundCredits refundCreditsBody getUserCredits
    rw [checkCredits_active_subscriber userId s u hu hact]
    simp [hsub]
  | updateError =>
    unfold refundCredits refundCreditsBody getUserCredits
    rw [checkCredits_active_subscriber userId s u hu hact]
    simp [hsub]

theorem refundCredits_nonsub_noFault (userId : Nat) (s : DB) (u : User)
    (hu : findUser userId s = some u) (hsub : u.isSubscribed = false) :
    refundCredits userId RefundFault.noFault s = refundUpdate userId s := by
  unfold refundCredits refundCreditsBody getUserCredits
  rw [checkCredits_nonsubscriber userId s u hu hsub]
  by_cases hc : u.credits ≤ 0 <;> simp [hc, hsub]

theorem refundCredits_nonsub_updateError (userId : Nat) (s : DB) (u : User)
    (hu : findUser userId s = some u) (hsub : u.isSubscribed = false) :
    refundCredits userId RefundFault.updateError s = s := by
  unfold refundCredits refundCreditsBody getUserCredits
  rw [checkCredits_nonsubscriber userId s u hu hsub]
  by_cases hc : u.credits ≤ 0 <;> simp [hc, hsub]

/-- C6: `refundCredits` never throws — its body runs inside `try`/`catch`,
so it is a total function of the store for every possible internal fault; it
is a no-op for users that cannot be found and for active subscribers; when it
takes effect on a non-subscriber it increments the balance by exactly one
unit; and a failing internal store call is swallowed leaving the balance
unchanged. -/
theorem refundCredits_contract (userId : Nat) (s : DB) :
    (refundCredits userId RefundFault.lookupError s = s) ∧
    (findUser userId s = none → ∀ fault, refundCredits userId fault s = s) ∧
    (∀ u, findUser userId s = some u → hasActiveSubscription u s.now = true →
      ∀ fault, refundCredits userId fault s = s) ∧
    (∀ u, findUser userId s = some u → u.isSubscribed = false →
      refundCredits userId RefundFault.noFault s = refundUpdate userId s ∧
      creditsOf userId (refundCredits userId RefundFault.noFault s)
        = some (u.credits + 1)) ∧
    (∀ u, findUser userId s = some u → u.isSubscribed = false →
      refundCredits userId RefundFault.updateError s = s) := by
  refine ⟨refundCredits_lookupError userId s, refundCredits_notfound userId s,
          ?_, ?_, ?_⟩
  · intro u hu hact
    exact refundCredits_active userId s u hu hact
  · intro u hu hsub
    have h := refundCredits_nonsub_noFault userId s u hu hsub
    refine ⟨h, ?_⟩
    rw [h]
    unfold creditsOf
    rw [findUser_refundUpdate_self userId s u hu]
    rfl
  · intro u hu hsub
    exact refundCredits_nonsub_updateError userId s u hu hsub

/-- C6 witness: a refund for the paying non-subscriber adds exactly one
credit; for an unknown user and under an update fault nothing changes. -/
theorem refundCredits_contract_witness :
    creditsOf 5 (refundCredits 5 RefundFault.noFault demoDb) = some 3 ∧
    refundCredits 7 RefundFault.noFault demoDb = demoDb ∧
    refundCredits 5 RefundFault.updateError demoDb = demoDb := by
  refine ⟨?_, ?_, ?_⟩
  · have h := ((refundCredits_contract 5 demoDb).2.2.2.1 payingUser rfl rfl).2
    simpa using h
  · exact (refundCredits_contract 7 demoDb).2.1 rfl RefundFault.noFault
  · exact (refundCredits_contract 5 demoDb).2.2.2.2 payingUser rfl rfl

theorem findUser_congr_users (userId : Nat) (s t : DB) (h : s.users = t.users) :
    findUser userId s = findUser userId t := by
  unfold findUser
  rw [h]

theorem findUser_updateSubscriptionStatus_self (userId : Nat) (b : Bool)
    (ex : Option Nat) (s : DB) (u : User) (hu : findUser userId s = some u) :
    findUser userId (updateSubscriptionStatus userId b ex s)
      = some { u with isSubscribed := b, subscriptionExpiresAt := ex } := by
  have heq : u.id = userId := by
    have h := List.find?_some hu
    simpa using h
  rw [findUser_updateSubscriptionStatus, hu]
  simp [heq]

/-- The three ways a `userInfo`-less `deductCredits` call can succeed:
active subscriber (no-op), non-subscriber through the guarded decrement, or
expired subscriber through downgrade followed by the guarded decrement. -/
theorem deductCredits_ok_cases (userId : Nat) (s s1 : DB)
    (h : deductCredits userId none s = (.ok (), s1)) :
    (∃ u, findUser userId s = some u ∧ hasActiveSubscription u s.now = true ∧
      s1 = s) ∨
    (∃ u, findUser userId s = some u ∧ u.isSubscribed = false ∧ 0 < u.credits ∧
      condDeductUpdate userId s = (.ok (), s1)) ∨
    (∃ u e, findUser userId s = some u ∧ u.isSubscribed = true ∧
      u.subscriptionExpiresAt = some e ∧ e ≤ s.now ∧ 0 < u.credits ∧
      condDeductUpdate userId (updateSubscriptionStatus userId false none s)
        = (.ok (), s1)) := by
  cases hu : findUser userId s with
  | none =>
    rw [deductCredits_none_notfound userId s hu] at h
    exact absurd (congrArg Prod.fst h) (by simp)
  | some u =>
    by_cases hsub : u.isSubscribed = true
    · cases hex : u.subscriptionExpiresAt with
      | none =>
        left
        have hact : hasActiveSubscription u s.now = true := by
          unfold hasActiveSubscription
          simp [hsub, hex]
        rw [deductCredits_none_active userId s u hu hact] at h
        exact ⟨u, rfl, hact, (congrArg Prod.snd h).symm⟩
      | some e =>
        by_cases hlt : s.now < e
        · left
          have hact : hasActiveSubscription u s.now = true := by
            unfold hasActiveSubscription
            simp [hsub, hex, hlt]
          rw [deductCredits_none_active userId s u hu hact] at h
          exact ⟨u, rfl, hact, (congrArg Prod.snd h).symm⟩
        · right; right
          have hle : e ≤ s.now := by omega
          rw [deductCredits_none_expired userId s u e hu hsub hex hle] at h
          by_cases hc : u.credits ≤ 0
          · rw [if_pos hc] at h
            exact absurd (congrArg Prod.fst h) (by simp)
          · rw [if_neg hc] at h
            exact ⟨u, e, rfl, hsub, hex, hle, by omega, h⟩
    · right; left
      have hsub' : u.isSubscribed = false := by simpa using hsub
      rw [deductCredits_none_nonsubscriber userId s u hu hsub'] at h
      by_cases hc : u.credits ≤ 0
      · rw [if_pos hc] at h
        exact absurd (congrArg Prod.fst h) (by simp)
      · rw [if_neg hc] at h
        exact ⟨u, rfl, hsub', by omega, h⟩

/-- C2: the full saga contract of `executeWithRollback` for operations that
do not themselves touch the users table or the clock — if the deduction
fails its error propagates and the operation is never run; if the operation
succeeds its result is returned unchanged and a non-subscriber has paid
exactly one credit; if the operation throws, the refund restores the balance
(`credits` after = `credits` before) and the original error — the refund can
contribute none — is re-thrown unchanged. -/
theorem executeWithRollback_saga {α : Type} (userId : Nat)
    (operation : DB → Except JsError α × DB) (s : DB)
    (hop : ∀ t, ((operation t).2).users = t.users ∧ ((operation t).2).now = t.now) :
    (∀ e s1, deductCredits userId none s = (.error e, s1) →
      ∀ fault (op' : DB → Except JsError α × DB),
        executeWithRollback userId fault op' s = (.error e, s1)) ∧
    (∀ fault s1 r s2, deductCredits userId none s = (.ok (), s1) →
      operation s1 = (.ok r, s2) →
      executeWithRollback userId fault operation s = (.ok r, s2) ∧
      (∀ u, findUser userId s = some u → u.isSubscribed = false →
        creditsOf userId s2 = some (u.credits - 1))) ∧
    (∀ s1 e s2, deductCredits userId none s = (.ok (), s1) →
      operation s1 = (.error e, s2) →
      (executeWithRollback userId RefundFault.noFault operation s).1 = .error e ∧
      creditsOf userId ((executeWithRollback userId RefundFault.noFault operation s).2)
        = creditsOf userId s) := by
  refine ⟨?_, ?_, ?_⟩
  · intro e s1 hded fault op'
    unfold executeWithRollback
    simp only [hded]
  · intro fault s1 r s2 hded hrun
    constructor
    · unfold executeWithRollback
      simp only [hded, hrun]
    · intro u hu hsub
      rcases deductCredits_ok_cases userId s s1 hded with
        ⟨u', hu', hact, _⟩ | ⟨u', hu', hsub', _, hcd⟩ |
        ⟨u', e', hu', hsubT, _, _, _, _⟩
      · rw [hu] at hu'
        cases hu'
        have : u.isSubscribed = true := by
          unfold hasActiveSubscription at hact
          exact ((Bool.and_eq_true ..).mp hact).1
        rw [this] at hsub
        cases hsub
      · rw [hu] at hu'
        cases hu'
        have hs1 : s1 = (condDeductUpdate userId s).2 := (congrArg Prod.snd hcd).symm
        have hf1 : findUser userId s1 = some { u with credits := u.credits - 1 } := by
          rw [hs1]
          exact (condDeductUpdate_success userId s u hu (by omega)).2.1
        unfold creditsOf
        rw [findUser_congr_users userId s2 s1 (by
              have := (hop s1).1
              rw [hrun] at this
              exact this),
            hf1]
        rfl
      · rw [hu] at hu'
        cases hu'
        simp [hsub] at hsubT
  · intro s1 e s2 hded hrun
    have hx : executeWithRollback userId RefundFault.noFault operation s
        = (.error e, refundCredits userId RefundFault.noFault s2) := by
      unfold executeWithRollback
      simp only [hded, hrun]
    have husers : s2.users = s1.users := by
      have := (hop s1).1
      rw [hrun] at this
      exact this
    have hnow : s2.now = s1.now := by
      have := (hop s1).2
      rw [hrun] at this
      exact this
    rw [hx]
    refine ⟨rfl, ?_⟩
    rcases deductCredits_ok_cases userId s s1 hded with
      ⟨u, hu, hact, hs1⟩ | ⟨u, hu, hsub, hpos, hcd⟩ |
      ⟨u, ex, hu, hsub, hex, hle, hpos, hcd⟩
    · -- active subscriber: deduct was a no-op and the refund is a no-op
      have hf2 : findUser userId s2 = some u := by
        rw [findUser_congr_users userId s2 s1 husers, hs1]
        exact hu
      have hact2 : hasActiveSubscription u s2.now = true := by
        rw [hnow, hs1]
        exact hact
      rw [refundCredits_active userId s2 u hf2 hact2 RefundFault.noFault]
      unfold creditsOf
      rw [findUser_congr_users userId s2 s1 husers, hs1]
    · -- non-subscriber: decremented then refunded
      have hs1' : s1 = (condDeductUpdate userId s).2 := (congrArg Prod.snd hcd).symm
      have hf1 : findUser userId s1 = some { u with credits := u.credits - 1 } := by
        rw [hs1']
        exact (condDeductUpdate_success userId s u hu hpos).2.1
      have hf2 : findUser userId s2 = some { u with credits := u.credits - 1 } := by
        rw [findUser_congr_users userId s2 s1 husers]
        exact hf1
      rw [refundCredits_nonsub_noFault userId s2 _ hf2 hsub]
      unfold creditsOf
      rw [findUser_refundUpdate_self userId s2 _ hf2, hu]
      simp only [Option.map_some']
      congr 1
      show u.credits - 1 + 1 = u.credits
      omega
    · -- expired subscriber: downgraded, decremented, then refunded
      have hdown : findUser userId (updateSubscriptionStatus userId false none s)
          = some { u with isSubscribed := false, subscriptionExpiresAt := none } :=
        findUser_updateSubscriptionStatus_self userId false none s u hu
      have hs1' : s1 = (condDeductUpdate userId
          (updateSubscriptionStatus userId false none s)).2 :=
        (congrArg Prod.snd hcd).symm
      have hf1 : findUser userId s1
          = some { u with isSubscribed := false, subscriptionExpiresAt := none,
                          credits := u.credits - 1 } := by
        rw [hs1']
        exact (condDeductUpdate_success userId _ _ hdown hpos).2.1
      have hf2 : findUser userId s2
          = some { u with isSubscribed := false, subscriptionExpiresAt := none,
                          credits := u.credits - 1 } := by
        rw [findUser_congr_users userId s2 s1 husers]
        exact hf1
      rw [refundCredits_nonsub_noFault userId s2 _ hf2 rfl]
      unfold creditsOf
      rw [findUser_refundUpdate_self userId s2 _ hf2, hu]
      simp only [Option.map_some']
      congr 1
      show u.credits - 1 + 1 = u.credits
      omega

/-- C2 witness: for the paying non-subscriber, a successful operation
returns its result with one credit spent, and a failing operation re-throws
its own error with the balance restored. -/
theorem executeWithRollback_saga_witness :
    (executeWithRollback 5 RefundFault.noFault
        (fun t => ((.ok 42 : Except JsError Nat), t)) demoDb).1 = .ok 42 ∧
    creditsOf 5 ((executeWithRollback 5 RefundFault.noFault
        (fun t => ((.ok 42 : Except JsError Nat), t)) demoDb).2) = some 1 ∧
    (executeWithRollback 5 RefundFault.noFault
        (fun t => ((.error { message := "analyzer down", status := none } :
            Except JsError Nat), t)) demoDb).1
      = .error { message := "analyzer down", status := none } ∧
    creditsOf 5 ((executeWithRollback 5 RefundFault.noFault
        (fun t => ((.error { message := "analyzer down", status := none } :
            Except JsError Nat), t)) demoDb).2)
      = creditsOf 5 demoDb := by
  have hok := (executeWithRollback_saga 5
      (fun t => ((.ok 42 : Except JsError Nat), t)) demoDb
      (fun t => ⟨rfl, rfl⟩)).2.1 RefundFault.noFault
      ((deductCredits 5 none demoDb).2) 42 ((deductCredits 5 none demoDb).2)
      rfl rfl
  have herr := (executeWithRollback_saga 5
      (fun t => ((.error { message := "analyzer down", status := none } :
          Except JsError Nat), t)) demoDb
      (fun t => ⟨rfl, rfl⟩)).2.2
      ((deductCredits 5 none demoDb).2)
      { message := "analyzer down", status := none }
      ((deductCredits 5 none demoDb).2) rfl rfl
  refine ⟨?_, ?_, herr.1, herr.2⟩
  · exact (congrArg Prod.fst hok.1).trans rfl
  · have h2 := hok.2 payingUser rfl rfl
    have h3 := congrArg (fun p : Except JsError Nat × DB => creditsOf 5 p.2) hok.1
    exact h3.trans (h2.trans (by decide))

/-! ### Status read model claims -/

def hlA : HighlightRow :=
  { id := 11, processingResultId := 2, title := "Main Content",
    filePath := "clips/c1.mp4", duration := 45, startTime := 60, endTime := 105 }

def hlB : HighlightRow :=
  { id := 12, processingResultId := 2, title := "Opening Scene",
    filePath := "clips/c2.mp4", duration := 30, startTime := 5, endTime := 35 }

/-- A derived row attached to a still-processing job (should not be served). -/
def hlStray : HighlightRow :=
  { id := 13, processingResultId := 3, title := "Stray",
    filePath := "clips/c3.mp4", duration := 10, startTime := 1, endTime := 11 }

def thA : ThumbnailRow :=
  { id := 21, processingResultId := 2, filePath := "thumbs/t1.png",
    timestamp := 85, width := 1920, height := 1080 }

def thB : ThumbnailRow :=
  { id := 22, processingResultId := 2, filePath := "thumbs/t2.png",
    timestamp := 20, width := 1920, height := 1080 }

def capA : CaptionRow :=
  { id := 31, processingResultId := 2, platform := "youtube",
    content := "hello", hashtags := "tips,howto" }

def completedDb : DB :=
  { now := 100, users := [],
    videos := [{ id := 9, filePath := some "v.mp4" }],
    jobs := [{ id := 2, videoId := 9, userId := none, status := "completed",
               progress := 100, errorMessage := none },
             { id := 3, videoId := 9, userId := none, status := "processing",
               progress := 0, errorMessage := none }],
    highlights := [hlA, hlB, hlStray],
    thumbnails := [thA, thB],
    captions := [capA],
    files := [], nextId := 4 }

/-- C8: `getStatus` serves the job row together with derived records only
when the job's status is `'completed'` — highlights ordered by start time,
thumbnails ordered by timestamp (each a sorted permutation of the job's
rows) — and for `'pending'`/`'processing'` jobs it serves empty highlight,
thumbnail and caption arrays regardless of which derived rows exist. -/
theorem getStatus_gates_on_status (processingId : Nat) (requester : Option Nat)
    (s : DB) (j : JobRow) (hj : findJob processingId s = some j)
    (hallow : (match j.userId with
               | some owner => requester == some owner
               | none => true) = true) :
    (j.status = "completed" →
      getStatus processingId requester s
        = .ok { id := j.id, videoId := j.videoId, status := j.status,
                progress := j.progress, errorMessage := j.errorMessage,
                highlights := List.insertionSort byStartTime (highlightsFor processingId s),
                thumbnails := List.insertionSort byTimestamp (thumbnailsFor processingId s),
                captions := captionsFor processingId s } ∧
      List.Sorted byStartTime
        (List.insertionSort byStartTime (highlightsFor processingId s)) ∧
      List.Perm (List.insertionSort byStartTime (highlightsFor processingId s))
        (highlightsFor processingId s) ∧
      List.Sorted byTimestamp
        (List.insertionSort byTimestamp (thumbnailsFor processingId s)) ∧
      List.Perm (List.insertionSort byTimestamp (thumbnailsFor processingId s))
        (thumbnailsFor processingId s)) ∧
    (j.status = "pending" ∨ j.status = "processing" →
      getStatus processingId requester s
        = .ok { id := j.id, videoId := j.videoId, status := j.status,
                progress := j.progress, errorMessage := j.errorMessage,
                highlights := [], thumbnails := [], captions := [] }) := by
  constructor
  · intro hst
    refine ⟨?_, List.sorted_insertionSort byStartTime _,
            List.perm_insertionSort byStartTime _,
            List.sorted_insertionSort byTimestamp _,
            List.perm_insertionSort byTimestamp _⟩
    unfold getStatus
    simp only [hj, hallow]
    simp [hst]
  · intro hst
    unfold getStatus
    simp only [hj, hallow]
    rcases hst with h | h <;> simp [h]

/-- C8 witness: the completed job is served with its rows sorted by start
time / timestamp; the processing job is served with empty arrays even though
a stray derived row exists for it. -/
theorem getStatus_gates_on_status_witness :
    getStatus 2 none completedDb
      = .ok { id := 2, videoId := 9, status := "completed", progress := 100,
              errorMessage := none,
              highlights := [hlB, hlA], thumbnails := [thB, thA],
              captions := [capA] } ∧
    getStatus 3 none completedDb
      = .ok { id := 3, videoId := 9, status := "processing", progress := 0,
              errorMessage := none,
              highlights := [], thumbnails := [], captions := [] } := by
  constructor
  · have h := ((getStatus_gates_on_status 2 none completedDb
        { id := 2, videoId := 9, userId := none, status := "completed",
          progress := 100, errorMessage := none } rfl rfl).1 rfl).1
    exact h.trans (by rfl)
  · exact (getStatus_gates_on_status 3 none completedDb
        { id := 3, videoId := 9, userId := none, status := "processing",
          progress := 0, errorMessage := none } rfl rfl).2 (Or.inr rfl)

/-! ### The concurrent-deduct race -/

/-- Has this call reached a terminal state? -/
def callDone : CallPC → Bool
  | .doneOk => true
  | .doneErr _ => true
  | _ => false

/-- How many of its two atomic store calls the call has consumed. -/
def callProg : CallPC → Nat
  | .start => 0
  | .deducting => 1
  | .doneOk => 2
  | .doneErr _ => 2

theorem callDone_of_prog (pc : CallPC) (h : 2 ≤ callProg pc) :
    callDone pc = true := by
  cases pc <;> simp [callDone, callProg] at *

theorem callProg_of_done (pc : CallPC) (h : callDone pc = true) :
    callProg pc = 2 := by
  cases pc <;> simp [callDone, callProg] at *

theorem callDone_cases (pc : CallPC) (h : callDone pc = true) :
    pc = .doneOk ∨ ∃ m, pc = .doneErr m := by
  cases pc <;> simp [callDone] at *

/-- The reachability invariant of two concurrent `deductCredits` calls for a
non-subscribed user who started with exactly one credit: the stored balance
is 0 exactly when one call has succeeded, at most one call ever succeeds,
every failed call failed for insufficient credits, and a failure can only
happen after a success. -/
structure RaceInv (userId : Nat) (u : User) (pcA pcB : CallPC) (s : DB) : Prop where
  nodup : (s.users.map User.id).Nodup
  row : findUser userId s
      = some { u with credits :=
          if pcA = CallPC.doneOk ∨ pcB = CallPC.doneOk then 0 else 1 }
  notBoth : ¬(pcA = CallPC.doneOk ∧ pcB = CallPC.doneOk)
  errA : ∀ m, pcA = CallPC.doneErr m → insufficientCreditsMessage m = true
  errB : ∀ m, pcB = CallPC.doneErr m → insufficientCreditsMessage m = true
  errImpliesOk : ((∃ m, pcA = CallPC.doneErr m) ∨ (∃ m, pcB = CallPC.doneErr m)) →
      pcA = CallPC.doneOk ∨ pcB = CallPC.doneOk

theorem RaceInv.swap {userId : Nat} {u : User} {pcA pcB : CallPC} {s : DB}
    (h : RaceInv userId u pcA pcB s) : RaceInv userId u pcB pcA s := by
  refine ⟨h.nodup, ?_, fun hb => h.notBoth ⟨hb.2, hb.1⟩, h.errB, h.errA,
          fun he => (h.errImpliesOk he.symm).symm⟩
  by_cases hab : pcA = CallPC.doneOk ∨ pcB = CallPC.doneOk
  · rw [if_pos hab.symm]
    have hrow := h.row
    rwa [if_pos hab] at hrow
  · rw [if_neg (fun hc => hab hc.symm)]
    have hrow := h.row
    rwa [if_neg hab] at hrow

/-- The four outcomes of one atomic step of a call, as a function of the
stored balance. -/
theorem stepCall_start_zero (userId : Nat) (u : User) (s : DB)
    (hsub : u.isSubscribed = false)
    (hrow : findUser userId s = some { u with credits := 0 }) :
    stepCall userId CallPC.start s = (.doneErr "Insufficient credits", s) := by
  have hchk := checkCredits_nonsubscriber userId s _ hrow hsub
  rw [if_pos (by norm_num)] at hchk
  unfold stepCall
  simp only [hchk]
  rfl

theorem stepCall_start_one (userId : Nat) (u : User) (s : DB)
    (hsub : u.isSubscribed = false)
    (hrow : findUser userId s = some { u with credits := 1 }) :
    stepCall userId CallPC.start s = (.deducting, s) := by
  have hchk := checkCredits_nonsubscriber userId s _ hrow hsub
  rw [if_neg (by norm_num)] at hchk
  unfold stepCall
  simp only [hchk]
  simp [hsub]

theorem stepCall_deduct_zero (userId : Nat) (u : User) (s : DB)
    (hn : (s.users.map User.id).Nodup)
    (hrow : findUser userId s = some { u with credits := 0 }) :
    stepCall userId CallPC.deducting s
      = (.doneErr "Failed to deduct credit - insufficient credits", s) := by
  have hz := countP_deduct_zero_of_nonpos userId s _ hn hrow (by norm_num)
  have hfail := condDeductUpdate_failure userId s hz
  unfold stepCall
  simp only [hfail]

theorem stepCall_deduct_one (userId : Nat) (u : User) (s : DB)
    (hrow : findUser userId s = some { u with credits := 1 }) :
    (stepCall userId CallPC.deducting s).1 = .doneOk ∧
    findUser userId (stepCall userId CallPC.deducting s).2
      = some { u with credits := 0 } ∧
    ((stepCall userId CallPC.deducting s).2.users.map User.id)
      = s.users.map User.id := by
  obtain ⟨h1, h2, h3⟩ := condDeductUpdate_success userId s _ hrow (by norm_num)
  have hpair : condDeductUpdate userId s = (.ok (), (condDeductUpdate userId s).2) :=
    Prod.ext h1 rfl
  have hstep : stepCall userId CallPC.deducting s
      = (.doneOk, (condDeductUpdate userId s).2) := by
    unfold stepCall
    rw [hpair]
  rw [hstep]
  refine ⟨rfl, ?_, h3⟩
  rw [h2]
  norm_num

/-- One step of the first call preserves the race invariant and makes
progress unless the call is already finished. -/
theorem raceInv_step_first (userId : Nat) (u : User)
    (hsub : u.isSubscribed = false) (pcA pcB : CallPC) (s : DB)
    (h : RaceInv userId u pcA pcB s) :
    RaceInv userId u (stepCall userId pcA s).1 pcB (stepCall userId pcA s).2 ∧
    (callDone pcA = true → stepCall userId pcA s = (pcA, s)) ∧
    (callDone pcA = false → callProg pcA < callProg (stepCall userId pcA s).1) := by
  cases pcA with
  | doneOk =>
    exact ⟨by simpa [stepCall] using h, fun _ => rfl,
           fun hd => by simp [callDone] at hd⟩
  | doneErr m =>
    exact ⟨by simpa [stepCall] using h, fun _ => rfl,
           fun hd => by simp [callDone] at hd⟩
  | start =>
    by_cases hok : pcB = CallPC.doneOk
    · have hrow : findUser userId s = some { u with credits := 0 } := by
        have := h.row
        rwa [if_pos (Or.inr hok)] at this
      have hstep := stepCall_start_zero userId u s hsub hrow
      rw [hstep]
      refine ⟨⟨h.nodup, ?_, ?_, ?_, h.errB, fun _ => Or.inr hok⟩,
              fun hd => by simp [callDone] at hd,
              fun _ => by simp [callProg]⟩
      · rw [if_pos (Or.inr hok)]
        exact hrow
      · rintro ⟨ha, _⟩
        cases ha
      · intro m hm
        cases hm
        decide
    · have hrow : findUser userId s = some { u with credits := 1 } := by
        have := h.row
        rwa [if_neg (by simp [hok])] at this
      have hstep := stepCall_start_one userId u s hsub hrow
      rw [hstep]
      refine ⟨⟨h.nodup, ?_, ?_, ?_, h.errB, ?_⟩,
              fun hd => by simp [callDone] at hd,
              fun _ => by simp [callProg]⟩
      · rw [if_neg (by simp [hok])]
        exact hrow
      · rintro ⟨ha, _⟩
        cases ha
      · intro m hm
        cases hm
      · rintro (⟨m, hm⟩ | hB)
        · cases hm
        · rcases h.errImpliesOk (Or.inr hB) with hA | hBok
          · cases hA
          · exact absurd hBok hok
  | deducting =>
    by_cases hok : pcB = CallPC.doneOk
    · have hrow : findUser userId s = some { u with credits := 0 } := by
        have := h.row
        rwa [if_pos (Or.inr hok)] at this
      have hstep := stepCall_deduct_zero userId u s h.nodup hrow
      rw [hstep]
      refine ⟨⟨h.nodup, ?_, ?_, ?_, h.errB, fun _ => Or.inr hok⟩,
              fun hd => by simp [callDone] at hd,
              fun _ => by simp [callProg]⟩
      · rw [if_pos (Or.inr hok)]
        exact hrow
      · rintro ⟨ha, _⟩
        cases ha
      · intro m hm
        cases hm
        decide
    · have hrow : findUser userId s = some { u with credits := 1 } := by
        have := h.row
        rwa [if_neg (by simp [hok])] at this
      obtain ⟨h1, h2, h3⟩ := stepCall_deduct_one userId u s hrow
      rw [h1]
      refine ⟨⟨?_, ?_, ?_, ?_, h.errB, fun _ => Or.inl rfl⟩,
              fun hd => by simp [callDone] at hd,
              fun _ => by simp [callProg]⟩
      · rw [h3]
        exact h.nodup
      · rw [if_pos (Or.inl rfl)]
        exact h2
      · rintro ⟨_, hb⟩
        exact hok hb
      · intro m hm
        cases hm

/-- Running any schedule preserves the race invariant, and a call that is
scheduled often enough reaches a terminal state. -/
theorem runSchedule_contract (userId : Nat) (u : User)
    (hsub : u.isSubscribed = false) :
    ∀ (schedule : List Bool) (pcA pcB : CallPC) (s : DB),
      RaceInv userId u pcA pcB s →
      RaceInv userId u (runSchedule userId schedule (pcA, pcB, s)).1
        (runSchedule userId schedule (pcA, pcB, s)).2.1
        (runSchedule userId schedule (pcA, pcB, s)).2.2 ∧
      (2 ≤ callProg pcA + schedule.count true →
        callDone (runSchedule userId schedule (pcA, pcB, s)).1 = true) ∧
      (2 ≤ callProg pcB + schedule.count false →
        callDone (runSchedule userId schedule (pcA, pcB, s)).2.1 = true) := by
  intro schedule
  induction schedule with
  | nil =>
    intro pcA pcB s h
    refine ⟨h, fun hp => callDone_of_prog pcA (by simpa using hp),
            fun hp => callDone_of_prog pcB (by simpa using hp)⟩
  | cons pick rest ih =>
    intro pcA pcB s h
    cases pick with
    | true =>
      obtain ⟨h', hid, hprog⟩ := raceInv_step_first userId u hsub pcA pcB s h
      have hred : runSchedule userId (true :: rest) (pcA, pcB, s)
          = runSchedule userId rest
              ((stepCall userId pcA s).1, pcB, (stepCall userId pcA s).2) := rfl
      rw [hred]
      obtain ⟨ih1, ih2, ih3⟩ :=
        ih (stepCall userId pcA s).1 pcB (stepCall userId pcA s).2 h'
      refine ⟨ih1, ?_, ?_⟩
      · intro hp
        apply ih2
        have hcount : (true :: rest).count true = rest.count true + 1 := by simp
        rw [hcount] at hp
        by_cases hd : callDone pcA = true
        · have hp2 := callProg_of_done pcA hd
          have h2 : callProg (stepCall userId pcA s).1 = 2 := by
            rw [hid hd]
            exact hp2
          omega
        · have := hprog (by simpa using hd)
          omega
      · intro hp
        apply ih3
        have hcount : (true :: rest).count false = rest.count false := by simp
        rwa [hcount] at hp
    | false =>
      obtain ⟨h', hid, hprog⟩ := raceInv_step_first userId u hsub pcB pcA s h.swap
      have hred : runSchedule userId (false :: rest) (pcA, pcB, s)
          = runSchedule userId rest
              (pcA, (stepCall userId pcB s).1, (stepCall userId pcB s).2) := rfl
      rw [hred]
      obtain ⟨ih1, ih2, ih3⟩ :=
        ih pcA (stepCall userId pcB s).1 (stepCall userId pcB s).2 h'.swap
      refine ⟨ih1, ?_, ?_⟩
      · intro hp
        apply ih2
        have hcount : (false :: rest).count true = rest.count true := by simp
        rwa [hcount] at hp
      · intro hp
        apply ih3
        have hcount : (false :: rest).count false = rest.count false + 1 := by simp
        rw [hcount] at hp
        by_cases hd : callDone pcB = true
        · have hp2 := callProg_of_done pcB hd
          have h2 : callProg (stepCall userId pcB s).1 = 2 := by
            rw [hid hd]
            exact hp2
          omega
        · have := hprog (by simpa using hd)
          omega

/-- C9: for a non-subscribed user whose unique stored row holds exactly one
credit, every interleaving of two concurrent `deductCredits` executions (each
of a call's two store statements is atomic; the schedule gives both calls
enough turns to finish) ends in exactly one success and one failure whose
error names insufficient credits — never two successes — because the
decrement is the balance-guarded conditional update, not a read-then-write
pair. -/
theorem concurrent_deduct_race (userId : Nat) (s : DB) (u : User)
    (schedule : List Bool)
    (hn : (s.users.map User.id).Nodup)
    (hu : findUser userId s = some u)
    (hsub : u.isSubscribed = false)
    (hcr : u.credits = 1)
    (hA : 2 ≤ schedule.count true)
    (hB : 2 ≤ schedule.count false) :
    ((runSchedule userId schedule (.start, .start, s)).1 = CallPC.doneOk ∧
      ∃ m, (runSchedule userId schedule (.start, .start, s)).2.1 = CallPC.doneErr m ∧
        insufficientCreditsMessage m = true) ∨
    ((runSchedule userId schedule (.start, .start, s)).2.1 = CallPC.doneOk ∧
      ∃ m, (runSchedule userId schedule (.start, .start, s)).1 = CallPC.doneErr m ∧
        insufficientCreditsMessage m = true) := by
  have hinv0 : RaceInv userId u CallPC.start CallPC.start s := by
    refine ⟨hn, ?_, (by rintro ⟨hx, _⟩; cases hx), (by intro m hm; cases hm),
            (by intro m hm; cases hm), (by rintro (⟨m, hm⟩ | ⟨m, hm⟩) <;> cases hm)⟩
    rw [if_neg (by rintro (hx | hx) <;> cases hx)]
    obtain ⟨uid, cr, subb, ex⟩ := u
    have : cr = 1 := hcr
    subst this
    exact hu
  obtain ⟨hfin, hdA, hdB⟩ :=
    runSchedule_contract userId u hsub schedule .start .start s hinv0
  have hdoneA := hdA (by simpa [callProg] using hA)
  have hdoneB := hdB (by simpa [callProg] using hB)
  rcases callDone_cases _ hdoneA with haok | ⟨m, ham⟩
  · left
    refine ⟨haok, ?_⟩
    rcases callDone_cases _ hdoneB with hbok | ⟨m, hbm⟩
    · exact absurd ⟨haok, hbok⟩ hfin.notBoth
    · exact ⟨m, hbm, hfin.errB m hbm⟩
  · right
    rcases hfin.errImpliesOk (Or.inl ⟨m, ham⟩) with hA' | hB'
    · rw [hA'] at ham
      cases ham
    · exact ⟨hB', m, ham, hfin.errA m ham⟩

def racerUser : User :=
  { id := 6, credits := 1, isSubscribed := false, subscriptionExpiresAt := none }

def raceDb : DB := mkDb 100 [racerUser]

/-- C9 witness: both calls interleaved turn by turn over a one-credit user. -/
theorem concurrent_deduct_race_witness :
    ((runSchedule 6 [true, false, true, false] (.start, .start, raceDb)).1
        = CallPC.doneOk ∧
      ∃ m, (runSchedule 6 [true, false, true, false] (.start, .start, raceDb)).2.1
          = CallPC.doneErr m ∧ insufficientCreditsMessage m = true) ∨
    ((runSchedule 6 [true, false, true, false] (.start, .start, raceDb)).2.1
        = CallPC.doneOk ∧
      ∃ m, (runSchedule 6 [true, false, true, false] (.start, .start, raceDb)).1
          = CallPC.doneErr m ∧ insufficientCreditsMessage m = true) :=
  concurrent_deduct_race 6 raceDb racerUser [true, false, true, false]
    (by decide) rfl rfl rfl (by decide) (by decide)

end ClipAI
